import Mathlib

/-!
Verification development for the `ai-call-summary` voice-agent repository.

The Python modules under study are shallowly embedded as executable Lean
functions:

* `epic_oauth.py` — the per-session OAuth/PKCE client (`EpicOAuthClient`):
  sessions are an association list keyed by session id (mirroring the
  module-level `_SESSIONS` dict), times are integers (seconds), and the
  token-endpoint transport is passed in as the response the endpoint would
  give, together with an explicit log of the requests actually issued.
* `AI_IVR.py` — the call-flow orchestrator: the authorization polling loop
  and the slot-selection branch are embedded, together with the attribute
  dispatch performed by `MCPRouterFallback.epic_has_token`.
* `fhir_appointments.py` — `FHIRAppointmentClient.book_appointment`.
* `customer_data.py` — `validate_customer` over an explicit customer table
  (the Excel file read by pandas is modelled as a list of string rows,
  matching `pd.read_excel(path, dtype=str)`).

Python exceptions are modelled with `Except`; a `PyErr` value records which
exception escaped.  Python `None`/missing-key is modelled with `Option`
(`epic_oauth.py` never distinguishes a key that is absent from a key whose
value is `None`: every read uses `dict.get`).
-/

/-- Exceptions that can escape the embedded Python code. -/
inductive PyErr where
  /-- Python `RuntimeError(msg)`. -/
  | runtimeError (msg : String)
  /-- Exception raised by `requests.Response.raise_for_status` for a
  4xx/5xx status. -/
  | httpError (status : Nat)
  /-- Python `AttributeError` for a missing attribute. -/
  | attributeError (attr : String)
  /-- Python `TypeError` (e.g. `in` applied to a non-string). -/
  | typeError
  deriving DecidableEq, Repr

/-- Decidable equality for `Except`, so traces of the embedded code can be
compared by `decide`. -/
instance instDecEqExcept {ε α : Type} [DecidableEq ε] [DecidableEq α] :
    DecidableEq (Except ε α) := fun a b =>
  match a, b with
  | Except.error e, Except.error f =>
      if h : e = f then isTrue (by rw [h]) else isFalse (by simp [h])
  | Except.ok x, Except.ok y =>
      if h : x = y then isTrue (by rw [h]) else isFalse (by simp [h])
  | Except.error _, Except.ok _ => isFalse (by simp)
  | Except.ok _, Except.error _ => isFalse (by simp)

/-! ## Python string primitives used by the embedded modules -/

/-- Python truthiness of an optional string: `None` and `""` are falsy. -/
def pyTruthy : Option String → Bool
  | none => false
  | some s => s ≠ ""

/-- Substring containment on character lists (`needle` occurs inside
`hay`); the empty needle occurs everywhere, as for Python `in`. -/
def charsContain (needle hay : List Char) : Bool :=
  match hay with
  | [] => needle.isEmpty
  | _ :: rest => needle.isPrefixOf hay || charsContain needle rest

/-- Python `sub in s` (substring containment). -/
def pyIn (sub s : String) : Bool :=
  charsContain sub.data s.data

/-- Python `str.lower()` restricted to ASCII (every string the embedded
code lowers is ASCII). -/
def pyLower (s : String) : String :=
  String.mk (s.data.map fun c =>
    if 65 ≤ c.toNat && c.toNat ≤ 90 then Char.ofNat (c.toNat + 32) else c)

/-- Python `str.strip()` restricted to ASCII whitespace (the DOB strings
the module strips are ASCII). -/
def pyStrip (s : String) : String :=
  String.mk
    (((s.data.dropWhile Char.isWhitespace).reverse.dropWhile Char.isWhitespace).reverse)

/-- Python `s[-n:]`: the last `min n (length s)` characters. -/
def pyLastN (s : String) (n : Nat) : String :=
  String.mk (s.data.drop (s.data.length - n))

/-- Embedding of `customer_data._normalize_digits` and of the inline
`re.sub(r"\D", "", s)` calls: keep only decimal digits (the repository's
data is ASCII, where `\d` is `0-9`).  `_normalize_digits` maps a falsy
input to `""`, which is also what filtering `""` gives. -/
def _normalize_digits (s : String) : String :=
  String.mk (s.data.filter fun c => c.isDigit)

/-! ## Data model of `epic_oauth.py`

The token-endpoint response `r.json()` is a JSON dict; the module reads it
only through the keys below, so the embedding carries exactly those keys
(each an `Option`, for `dict.get`).  `expires_at` is the key the module
itself adds to the dict after redemption/refresh. -/

/-- Token dict stored in a session: the token-endpoint response JSON
restricted to the keys `epic_oauth.py` reads, plus the `expires_at` key the
module writes. -/
structure TokenJson where
  /-- Key `access_token`. -/
  access_token : Option String := none
  /-- Key `refresh_token`. -/
  refresh_token : Option String := none
  /-- Key `expires_in` (the provider sends an integral number of seconds;
  the module applies `int(...)` to it). -/
  expires_in : Option Int := none
  /-- Key `id_token` (raw JWT string). -/
  id_token : Option String := none
  /-- Non-standard key `__epic.dstu2.patient`. -/
  epic_dstu2_patient : Option String := none
  /-- Key `patient`. -/
  patient : Option String := none
  /-- Key `expires_at`, written by the module itself (absent in a fresh
  endpoint response). -/
  expires_at : Option Int := none
  deriving DecidableEq, Repr

/-- One value of the `_SESSIONS` dict.  `create_session` initialises every
field to `None`; `build_authorize_url` on an unknown id creates (via
`setdefault(session_id, Ø)`) an entry whose other keys are missing, which
the module cannot distinguish from `None`-valued keys since it only ever
reads them with `dict.get`. -/
structure Session where
  /-- Key `created_at` (seconds; `None` for the `setdefault`-created
  partial entry). -/
  created_at : Option Int := none
  /-- Key `pkce_verifier`. -/
  pkce_verifier : Option String := none
  /-- Key `token`. -/
  token : Option TokenJson := none
  /-- Key `fhir_patient_id`. -/
  fhir_patient_id : Option String := none
  deriving DecidableEq, Repr

/-- The module-level `_SESSIONS` dict: an insertion-ordered association
list from session id to session. -/
abbrev Store := List (String × Session)

/-- Python `dict.get(sid)` on the session store. -/
def Store.find? (st : Store) (sid : String) : Option Session :=
  match st with
  | [] => none
  | (k, v) :: rest => if k = sid then some v else Store.find? rest sid

/-- Python `dict[sid] = sess`: replace in place, or append when absent
(insertion order preserved, as for a Python dict). -/
def Store.set (st : Store) (sid : String) (sess : Session) : Store :=
  match st with
  | [] => [(sid, sess)]
  | (k, v) :: rest =>
      if k = sid then (k, sess) :: rest else (k, v) :: Store.set rest sid sess

/-! ## Base64url, percent-encoding and the PKCE pair -/

/-- Character `n` of the URL-safe base64 alphabet
`A-Z a-z 0-9 - _` (the alphabet of `base64.urlsafe_b64encode`). -/
def b64Char (n : Nat) : Char :=
  if n < 26 then Char.ofNat (65 + n)
  else if n < 52 then Char.ofNat (97 + (n - 26))
  else if n < 62 then Char.ofNat (48 + (n - 52))
  else if n = 62 then Char.ofNat 45
  else Char.ofNat 95

/-- Embedding of `base64.urlsafe_b64encode(bytes).rstrip(b"=")`: encode
3-byte groups into 4 characters; a trailing group of 1 or 2 bytes yields 2
or 3 characters (the stripped `=` padding never appears). -/
def urlsafe_b64encode_nopad : List Nat → List Char
  | [] => []
  | [a] =>
      let a := a % 256
      [b64Char (a / 4), b64Char (a % 4 * 16)]
  | [a, b] =>
      let a := a % 256
      let b := b % 256
      [b64Char (a / 4), b64Char (a % 4 * 16 + b / 16), b64Char (b % 16 * 4)]
  | a :: b :: c :: rest =>
      let a := a % 256
      let b := b % 256
      let c := c % 256
      b64Char (a / 4) :: b64Char (a % 4 * 16 + b / 16) ::
        b64Char (b % 16 * 4 + c / 64) :: b64Char (c % 64) ::
        urlsafe_b64encode_nopad rest

/-- Embedding of `epic_oauth._make_pkce_pair`, with the two library
primitives it calls passed in explicitly: `randomBytes` stands for the
result of `secrets.token_bytes(40)` (so callers pass 40 bytes) and
`sha256` for `hashlib.sha256(...).digest()`.  Returns
`(verifier, challenge)`. -/
def _make_pkce_pair (randomBytes : List Nat) (sha256 : List Nat → List Nat) :
    String × String :=
  let verifier := String.mk (urlsafe_b64encode_nopad randomBytes)
  let digest := sha256 (verifier.data.map Char.toNat)
  let challenge := String.mk (urlsafe_b64encode_nopad digest)
  (verifier, challenge)

/-- Uppercase hexadecimal digit, for percent-encoding. -/
def hexUpper (n : Nat) : Char :=
  if n < 10 then Char.ofNat (48 + n) else Char.ofNat (55 + n)

/-- UTF-8 encoding of one character, as byte values. -/
def utf8Bytes (c : Char) : List Nat :=
  let n := c.toNat
  if n < 128 then [n]
  else if n < 2048 then [192 + n / 64, 128 + n % 64]
  else if n < 65536 then [224 + n / 4096, 128 + n / 64 % 64, 128 + n % 64]
  else [240 + n / 262144, 128 + n / 4096 % 64, 128 + n / 64 % 64, 128 + n % 64]

/-- Characters `urllib.parse.quote_plus` leaves unescaped: ASCII letters,
digits and `_ . - ~`. -/
def quotePlusSafe (c : Char) : Bool :=
  (65 ≤ c.toNat && c.toNat ≤ 90) || (97 ≤ c.toNat && c.toNat ≤ 122) ||
  (48 ≤ c.toNat && c.toNat ≤ 57) ||
  c = '_' || c = '.' || c = '-' || c = '~'

/-- Encoding of one character under `quote_plus`: safe characters pass
through, a space becomes `+`, anything else is percent-encoded
byte-wise. -/
def quotePlusChar (c : Char) : List Char :=
  if quotePlusSafe c then [c]
  else if c = ' ' then ['+']
  else (utf8Bytes c).flatMap fun b => ['%', hexUpper (b / 16), hexUpper (b % 16)]

/-- Embedding of `urllib.parse.quote_plus`. -/
def quote_plus (s : String) : String :=
  String.mk (s.data.flatMap quotePlusChar)

/-- Join strings with `&`, as `urlencode`'s `"&".join`. -/
def joinAmp : List String → String
  | [] => ""
  | [x] => x
  | x :: y :: rest => x ++ "&" ++ joinAmp (y :: rest)

/-- Embedding of `urllib.parse.urlencode` as called on the authorize
parameters: `quote_plus` each key and value, join `k=v` pairs with `&`
(dict insertion order). -/
def urlencode (params : List (String × String)) : String :=
  joinAmp (params.map fun kv => quote_plus kv.1 ++ "=" ++ quote_plus kv.2)

/-! ## JSON values, as produced by `json.loads`

Needed by the embedding of `_safe_b64_json_decode` (the id-token claim
extraction inside `redeem_code_for_token` and the refresh path of
`get_valid_access_token`). -/

/-- Parsed JSON value.  Number lexemes are carried verbatim: the embedded
module never reads a numeric claim value except through truthiness. -/
inductive Json where
  | null : Json
  | boolean (b : Bool) : Json
  | number (lexeme : String) : Json
  | str (s : String) : Json
  | arr (xs : List Json) : Json
  | obj (fields : List (String × Json)) : Json

/-- Opening brace character (written by code point to keep braces out of
literals). -/
def lbrace : Char := Char.ofNat 123

/-- Closing brace character. -/
def rbrace : Char := Char.ofNat 125

/-- JSON whitespace skipped by `json.loads`. -/
def skipWs (cs : List Char) : List Char :=
  match cs with
  | c :: rest =>
      if c = ' ' || c = '\t' || c = '\n' || c = '\r' then skipWs rest else c :: rest
  | [] => []

/-- Value of a hexadecimal digit. -/
def hexVal (c : Char) : Option Nat :=
  if 48 ≤ c.toNat && c.toNat ≤ 57 then some (c.toNat - 48)
  else if 97 ≤ c.toNat && c.toNat ≤ 102 then some (c.toNat - 87)
  else if 65 ≤ c.toNat && c.toNat ≤ 70 then some (c.toNat - 55)
  else none

/-- Parse the body of a JSON string (the opening quote already consumed),
handling the standard escapes; `\uXXXX` escapes combine surrogate pairs
as `json.loads` does. -/
def parseJStringBody (fuel : Nat) (cs : List Char) (acc : List Char) :
    Option (String × List Char) :=
  match fuel, cs with
  | 0, _ => none
  | _, [] => none
  | fuel + 1, c :: rest =>
      if c = '"' then some (String.mk acc.reverse, rest)
      else if c = '\\' then
        match rest with
        | [] => none
        | e :: rest2 =>
            if e = '"' then parseJStringBody fuel rest2 ('"' :: acc)
            else if e = '\\' then parseJStringBody fuel rest2 ('\\' :: acc)
            else if e = '/' then parseJStringBody fuel rest2 ('/' :: acc)
            else if e = 'b' then parseJStringBody fuel rest2 (Char.ofNat 8 :: acc)
            else if e = 'f' then parseJStringBody fuel rest2 (Char.ofNat 12 :: acc)
            else if e = 'n' then parseJStringBody fuel rest2 ('\n' :: acc)
            else if e = 'r' then parseJStringBody fuel rest2 ('\r' :: acc)
            else if e = 't' then parseJStringBody fuel rest2 ('\t' :: acc)
            else if e = 'u' then
              match rest2 with
              | h1 :: h2 :: h3 :: h4 :: rest3 =>
                  match hexVal h1, hexVal h2, hexVal h3, hexVal h4 with
                  | some v1, some v2, some v3, some v4 =>
                      let u := v1 * 4096 + v2 * 256 + v3 * 16 + v4
                      if 55296 ≤ u && u ≤ 56319 then
                        match rest3 with
                        | b1 :: b2 :: l1 :: l2 :: l3 :: l4 :: rest4 =>
                            if b1 = '\\' && b2 = 'u' then
                              match hexVal l1, hexVal l2, hexVal l3, hexVal l4 with
                              | some w1, some w2, some w3, some w4 =>
                                  let v := w1 * 4096 + w2 * 256 + w3 * 16 + w4
                                  if 56320 ≤ v && v ≤ 57343 then
                                    let cp := 65536 + (u - 55296) * 1024 + (v - 56320)
                                    parseJStringBody fuel rest4 (Char.ofNat cp :: acc)
                                  else none
                              | _, _, _, _ => none
                            else none
                        | _ => none
                      else if 56320 ≤ u && u ≤ 57343 then none
                      else parseJStringBody fuel rest3 (Char.ofNat u :: acc)
                  | _, _, _, _ => none
              | _ => none
            else none
      else parseJStringBody fuel rest (c :: acc)

/-- Characters that may occur in a JSON number lexeme. -/
def numChar (c : Char) : Bool :=
  c.isDigit || c = '-' || c = '+' || c = '.' || c = 'e' || c = 'E'

mutual

/-- Parse one JSON value (fuel-based recursive-descent embedding of the
`json.loads` grammar; number lexemes are validated only loosely, which the
embedded module cannot observe). -/
def parseJValue (fuel : Nat) (cs : List Char) : Option (Json × List Char) :=
  match fuel with
  | 0 => none
  | fuel + 1 =>
      match skipWs cs with
      | [] => none
      | c :: rest =>
          if c = '"' then
            match parseJStringBody (rest.length + 1) rest [] with
            | some (s, rest2) => some (Json.str s, rest2)
            | none => none
          else if c = lbrace then
            match skipWs rest with
            | c2 :: rest2 =>
                if c2 = rbrace then some (Json.obj [], rest2)
                else parseJMembers fuel (c2 :: rest2) []
            | [] => none
          else if c = '[' then
            match skipWs rest with
            | c2 :: rest2 =>
                if c2 = ']' then some (Json.arr [], rest2)
                else parseJElems fuel (c2 :: rest2) []
            | [] => none
          else if c = 't' then
            match rest with
            | 'r' :: 'u' :: 'e' :: rest2 => some (Json.boolean true, rest2)
            | _ => none
          else if c = 'f' then
            match rest with
            | 'a' :: 'l' :: 's' :: 'e' :: rest2 => some (Json.boolean false, rest2)
            | _ => none
          else if c = 'n' then
            match rest with
            | 'u' :: 'l' :: 'l' :: rest2 => some (Json.null, rest2)
            | _ => none
          else if numChar c then
            let lex := (c :: rest).takeWhile numChar
            if lex.any Char.isDigit then
              some (Json.number (String.mk lex), (c :: rest).dropWhile numChar)
            else none
          else none

/-- Parse the members of a JSON object (positioned at the first key, the
opening brace consumed), accumulating in reverse. -/
def parseJMembers (fuel : Nat) (cs : List Char) (acc : List (String × Json)) :
    Option (Json × List Char) :=
  match fuel with
  | 0 => none
  | fuel + 1 =>
      match skipWs cs with
      | '"' :: rest =>
          match parseJStringBody (rest.length + 1) rest [] with
          | some (key, rest2) =>
              match skipWs rest2 with
              | ':' :: rest3 =>
                  match parseJValue fuel rest3 with
                  | some (v, rest4) =>
                      match skipWs rest4 with
                      | ',' :: rest5 => parseJMembers fuel rest5 ((key, v) :: acc)
                      | c :: rest5 =>
                          if c = rbrace then
                            some (Json.obj ((key, v) :: acc).reverse, rest5)
                          else none
                      | [] => none
                  | none => none
              | _ => none
          | none => none
      | _ => none

/-- Parse the elements of a JSON array (positioned at the first element),
accumulating in reverse. -/
def parseJElems (fuel : Nat) (cs : List Char) (acc : List Json) :
    Option (Json × List Char) :=
  match fuel with
  | 0 => none
  | fuel + 1 =>
      match parseJValue fuel cs with
      | some (v, rest) =>
          match skipWs rest with
          | ',' :: rest2 => parseJElems fuel rest2 (v :: acc)
          | ']' :: rest2 => some (Json.arr (v :: acc).reverse, rest2)
          | _ => none
      | none => none

end

/-- Embedding of `json.loads` on a string: parse one value and require
only whitespace after it. -/
def json_loads (s : String) : Option Json :=
  match parseJValue (s.data.length + 1) s.data with
  | some (v, rest) => if skipWs rest = [] then some v else none
  | none => none

/-- Base64 value of a character, for the post-translation alphabet of
`urlsafe_b64decode` (both `-_` and `+/` decode). -/
def b64Val (c : Char) : Option Nat :=
  if 65 ≤ c.toNat && c.toNat ≤ 90 then some (c.toNat - 65)
  else if 97 ≤ c.toNat && c.toNat ≤ 122 then some (c.toNat - 71)
  else if 48 ≤ c.toNat && c.toNat ≤ 57 then some (c.toNat + 4)
  else if c = '-' || c = '+' then some 62
  else if c = '_' || c = '/' then some 63
  else none

/-- Decode base64 6-bit groups to bytes; a leftover single character is an
error (mirroring `binascii`'s invalid-length error). -/
def b64Groups : List Nat → Option (List Nat)
  | [] => some []
  | [_] => none
  | [a, b] => some [a * 4 + b / 16]
  | [a, b, c] => some [a * 4 + b / 16, b % 16 * 16 + c / 4]
  | a :: b :: c :: d :: rest =>
      match b64Groups rest with
      | some bytes =>
          some ((a * 4 + b / 16) :: (b % 16 * 16 + c / 4) :: (c % 4 * 64 + d) :: bytes)
      | none => none

/-- Embedding of `base64.urlsafe_b64decode` in its default non-validating
mode: characters outside the alphabet are discarded, data characters are
taken up to the first padding `=`, and decoded in 4-character groups. -/
def urlsafe_b64decode (cs : List Char) : Option (List Nat) :=
  let valid := cs.filter fun c => (b64Val c).isSome || c = '='
  let dataChars := valid.takeWhile fun c => c ≠ '='
  b64Groups (dataChars.filterMap b64Val)

/-- Strict UTF-8 decoding of a byte list (how `json.loads` reads a `bytes`
input); malformed sequences fail.  Overlong encodings are not rejected,
which the embedded module cannot observe through the keys it reads. -/
def utf8Decode : List Nat → Option (List Char)
  | [] => some []
  | b :: rest =>
      if b < 128 then
        match utf8Decode rest with
        | some cs => some (Char.ofNat b :: cs)
        | none => none
      else if 194 ≤ b && b < 224 then
        match rest with
        | b2 :: rest2 =>
            if 128 ≤ b2 && b2 < 192 then
              match utf8Decode rest2 with
              | some cs => some (Char.ofNat ((b - 192) * 64 + (b2 - 128)) :: cs)
              | none => none
            else none
        | _ => none
      else if 224 ≤ b && b < 240 then
        match rest with
        | b2 :: b3 :: rest2 =>
            if 128 ≤ b2 && b2 < 192 && 128 ≤ b3 && b3 < 192 then
              let cp := (b - 224) * 4096 + (b2 - 128) * 64 + (b3 - 128)
              if 55296 ≤ cp && cp ≤ 57343 then none
              else
                match utf8Decode rest2 with
                | some cs => some (Char.ofNat cp :: cs)
                | none => none
            else none
        | _ => none
      else if 240 ≤ b && b < 245 then
        match rest with
        | b2 :: b3 :: b4 :: rest2 =>
            if 128 ≤ b2 && b2 < 192 && 128 ≤ b3 && b3 < 192 && 128 ≤ b4 && b4 < 192 then
              let cp := (b - 240) * 262144 + (b2 - 128) * 4096 + (b3 - 128) * 64 + (b4 - 128)
              if cp < 1114112 then
                match utf8Decode rest2 with
                | some cs => some (Char.ofNat cp :: cs)
                | none => none
              else none
            else none
        | _ => none
      else none

/-- Embedding of `epic_oauth._safe_b64_json_decode`: pad to a multiple of
4, base64url-decode, `json.loads` the bytes; any failure yields the empty
dict. -/
def _safe_b64_json_decode (s : String) : Json :=
  let padded := s.data ++ List.replicate ((4 - s.length % 4) % 4) '='
  match urlsafe_b64decode padded with
  | none => Json.obj []
  | some bytes =>
      match utf8Decode bytes with
      | none => Json.obj []
      | some cs =>
          match json_loads (String.mk cs) with
          | none => Json.obj []
          | some j => j

/-- Whether a JSON number lexeme denotes zero: every digit of the mantissa
is `0` (exact for the `json` grammar). -/
def jsonNumIsZero (lexeme : String) : Bool :=
  (lexeme.data.takeWhile fun c => c ≠ 'e' && c ≠ 'E').all fun c =>
    !c.isDigit || c = '0'

/-- Python truthiness of a parsed JSON value. -/
def jsonTruthy : Json → Bool
  | Json.null => false
  | Json.boolean b => b
  | Json.number lex => !jsonNumIsZero lex
  | Json.str s => s ≠ ""
  | Json.arr xs => !xs.isEmpty
  | Json.obj fs => !fs.isEmpty

/-- Python `claims.get(key)`: `dict.get` when the value is a dict (with
the last duplicate key winning, as for `json.loads`); an `AttributeError`
when `json.loads` produced a non-dict. -/
def pyJsonGet (j : Json) (key : String) : Except PyErr (Option Json) :=
  match j with
  | Json.obj fields =>
      Except.ok ((fields.reverse.find? fun kv => kv.1 = key).map fun kv => kv.2)
  | _ => Except.error (PyErr.attributeError "get")

/-- Embedding of epic_oauth.py lines 129-133 / 178-182: given a truthy
`id_token`, compute `claims = _safe_b64_json_decode(id_token.split(".")[1])
if "." in id_token else dict()`, read `claims.get("fhirUser")`, and when
that value is truthy and contains `/Patient/` return the final
`split("/Patient/")` component.  A truthy non-string `fhirUser` makes the
`in` test raise `TypeError`, which propagates. -/
def derive_fhir_user_patient (id_token : String) : Except PyErr (Option String) :=
  let claims :=
    if pyIn "." id_token then
      _safe_b64_json_decode ((id_token.splitOn ".").getD 1 "")
    else Json.obj []
  match pyJsonGet claims "fhirUser" with
  | Except.error e => Except.error e
  | Except.ok none => Except.ok none
  | Except.ok (some v) =>
      if jsonTruthy v then
        match v with
        | Json.str s =>
            if pyIn "/Patient/" s then
              Except.ok (some ((s.splitOn "/Patient/").getLastD ""))
            else Except.ok none
        | _ => Except.error PyErr.typeError
      else Except.ok none

/-- Environment-derived configuration of `epic_oauth.py` (the module reads
it once at import time; the sanity check in `__init__` requires the values
to be present, so they are modelled as plain strings). -/
structure Config where
  /-- EPIC_CLIENT_ID. -/
  client_id : String
  /-- EPIC_REDIRECT_URI. -/
  redirect_uri : String
  /-- EPIC_SCOPE. -/
  scope : String
  /-- EPIC_FHIR_BASE (used as the `aud` value). -/
  fhir_base : String
  /-- EPIC_AUTHORIZE_URL (auth base + `/authorize`). -/
  authorize_url : String
  /-- EPIC_TOKEN_URL (auth base + `/token`). -/
  token_url : String
  /-- EPIC_CLIENT_SECRET (may be empty for public clients). -/
  client_secret : Option String := none
  deriving Repr

/-- Form body of a POST to the token endpoint, together with whether the
Basic `Authorization` header was attached (it is, exactly when a client
secret is configured).  Fields the grant type does not use stay `none`. -/
structure TokenRequest where
  /-- Form field `grant_type`. -/
  grant_type : String
  /-- Form field `code` (authorization-code grant only). -/
  code : Option String := none
  /-- Form field `redirect_uri` (authorization-code grant only). -/
  redirect_uri : Option String := none
  /-- Form field `code_verifier` (authorization-code grant only). -/
  code_verifier : Option String := none
  /-- Form field `refresh_token` (refresh grant only). -/
  refresh_token : Option String := none
  /-- Form field `client_id`. -/
  client_id : String
  /-- Form field `aud`. -/
  aud : String
  /-- Whether the HTTP Basic auth header was attached. -/
  basic_auth : Bool
  deriving DecidableEq, Repr

/-- Response of the token endpoint: HTTP status and the parsed JSON body
(restricted to the keys the module reads). -/
structure TokenResponse where
  /-- HTTP status code. -/
  status : Nat
  /-- Parsed response body. -/
  body : TokenJson
  deriving DecidableEq, Repr

/-- Whether `requests.Response.raise_for_status` raises for this status
(4xx and 5xx). -/
def raisesForStatus (status : Nat) : Bool :=
  400 ≤ status && status < 600

/-- Result of `redeem_code_for_token`: the returned token dict or the
escaping exception, the session store after the call (mutations performed
before an exception persist, as for the Python dict), and the requests
actually POSTed to the token endpoint. -/
structure RedeemOut where
  /-- Return value or escaped exception. -/
  result : Except PyErr TokenJson
  /-- Session store after the call. -/
  store : Store
  /-- Token-endpoint requests issued, in order. -/
  requests : List TokenRequest
  deriving DecidableEq, Repr

/-- Result of `get_valid_access_token`: the returned access token
(`none` for Python `None`) or the escaping exception, the store after the
call, and the token-endpoint requests issued. -/
structure TokenOut where
  /-- Return value or escaped exception. -/
  result : Except PyErr (Option String)
  /-- Session store after the call. -/
  store : Store
  /-- Token-endpoint requests issued, in order. -/
  requests : List TokenRequest
  deriving DecidableEq, Repr

namespace EpicOAuthClient

/-- Embedding of `EpicOAuthClient.create_session`: allocate the session
bucket with every field `None` but `created_at`. -/
def create_session (st : Store) (sid : String) (now : Int) : Store :=
  st.set sid { created_at := some now }

/-- Embedding of `EpicOAuthClient.build_authorize_url`: generate the PKCE
pair, store the verifier under `sessions.setdefault(session_id, empty
dict)` (silently creating a fresh entry when the id is unknown, and
overwriting any verifier already there), and return the authorize URL with
the eight query parameters in the order the source builds them.
`randomBytes`/`sha256` stand for `secrets.token_bytes(40)` and
`hashlib.sha256` as in `_make_pkce_pair`.  Returns the updated store and
the URL. -/
def build_authorize_url (cfg : Config) (st : Store) (sid : String)
    (randomBytes : List Nat) (sha256 : List Nat → List Nat) : Store × String :=
  let pair := _make_pkce_pair randomBytes sha256
  let sess := (st.find? sid).getD {}
  let st' := st.set sid { sess with pkce_verifier := some pair.1 }
  let params := [("client_id", cfg.client_id), ("response_type", "code"),
    ("redirect_uri", cfg.redirect_uri), ("scope", cfg.scope), ("state", sid),
    ("code_challenge", pair.2), ("code_challenge_method", "S256"),
    ("aud", cfg.fhir_base)]
  (st', cfg.authorize_url ++ "?" ++ urlencode params)

/-- The authorization-code request `redeem_code_for_token` POSTs. -/
def redeem_request (cfg : Config) (code : String) (verifier : Option String) :
    TokenRequest :=
  { grant_type := "authorization_code", code := some code,
    redirect_uri := some cfg.redirect_uri, client_id := cfg.client_id,
    code_verifier := verifier, aud := cfg.fhir_base,
    basic_auth := pyTruthy cfg.client_secret }

/-- The refresh request the refresh path of `get_valid_access_token`
POSTs. -/
def refresh_request (cfg : Config) (refresh : Option String) : TokenRequest :=
  { grant_type := "refresh_token", refresh_token := refresh,
    client_id := cfg.client_id, aud := cfg.fhir_base,
    basic_auth := pyTruthy cfg.client_secret }

/-- Embedding of `EpicOAuthClient.redeem_code_for_token`.  `now` is the
`time.time()` read when computing `expires_at`; `resp` is the response the
token endpoint gives to the (single, logged) request.  Raises
`RuntimeError` for an unknown session or a missing (`None` or empty) PKCE
verifier before any request is issued; raises the `raise_for_status`
exception on a 4xx/5xx; otherwise stores the token (plus `expires_at`),
derives the patient id from the non-standard token keys or the id-token
claims, and returns the token dict. -/
def redeem_code_for_token (cfg : Config) (st : Store) (code sid : String)
    (now : Int) (resp : TokenResponse) : RedeemOut :=
  match st.find? sid with
  | none => ⟨Except.error (PyErr.runtimeError "Unknown session"), st, []⟩
  | some sess =>
      if ¬ pyTruthy sess.pkce_verifier then
        ⟨Except.error (PyErr.runtimeError "PKCE verifier missing for session"), st, []⟩
      else
        let req := redeem_request cfg code sess.pkce_verifier
        if raisesForStatus resp.status then
          ⟨Except.error (PyErr.httpError resp.status), st, [req]⟩
        else
          let tok := { resp.body with
                       expires_at := some (now + resp.body.expires_in.getD 3600) }
          let sess1 := { sess with token := some tok }
          let f1 := tok.epic_dstu2_patient
          let f2 := if pyTruthy f1 then f1 else tok.patient
          if pyTruthy f2 then
            ⟨Except.ok tok, st.set sid { sess1 with fhir_patient_id := f2 }, [req]⟩
          else
            match tok.id_token with
            | some idt =>
                if idt ≠ "" then
                  match derive_fhir_user_patient idt with
                  | Except.error e => ⟨Except.error e, st.set sid sess1, [req]⟩
                  | Except.ok (some p) =>
                      if p ≠ "" then
                        ⟨Except.ok tok, st.set sid { sess1 with fhir_patient_id := some p },
                          [req]⟩
                      else ⟨Except.ok tok, st.set sid sess1, [req]⟩
                  | Except.ok none => ⟨Except.ok tok, st.set sid sess1, [req]⟩
                else ⟨Except.ok tok, st.set sid sess1, [req]⟩
            | none => ⟨Except.ok tok, st.set sid sess1, [req]⟩

/-- Embedding of `EpicOAuthClient.get_valid_access_token`.  `now` is the
`time.time()` read compared against `expires_at - 10`; `nowRefresh` the
second read used to stamp the refreshed token; `resp` the token-endpoint
response to the (single, logged) refresh request.  Returns the cached
access token while `now < expires_at - 10`; with no (truthy) refresh token
returns `None`; otherwise refreshes: a 4xx/5xx raises, success stores the
new token wholesale, re-extracts the patient id from the new id-token
claims, and returns the new access token. -/
def get_valid_access_token (cfg : Config) (st : Store) (sid : String)
    (now nowRefresh : Int) (resp : TokenResponse) : TokenOut :=
  match st.find? sid with
  | none => ⟨Except.ok none, st, []⟩
  | some sess =>
      match sess.token with
      | none => ⟨Except.ok none, st, []⟩
      | some tok =>
          if now < tok.expires_at.getD 0 - 10 then
            ⟨Except.ok tok.access_token, st, []⟩
          else if ¬ pyTruthy tok.refresh_token then
            ⟨Except.ok none, st, []⟩
          else
            let req := refresh_request cfg tok.refresh_token
            if raisesForStatus resp.status then
              ⟨Except.error (PyErr.httpError resp.status), st, [req]⟩
            else
              let newtok := { resp.body with
                              expires_at := some (nowRefresh + resp.body.expires_in.getD 3600) }
              let sess1 := { sess with token := some newtok }
              match newtok.id_token with
              | some idt =>
                  if idt ≠ "" then
                    match derive_fhir_user_patient idt with
                    | Except.error e => ⟨Except.error e, st.set sid sess1, [req]⟩
                    | Except.ok (some p) =>
                        ⟨Except.ok newtok.access_token,
                          st.set sid { sess1 with fhir_patient_id := some p }, [req]⟩
                    | Except.ok none =>
                        ⟨Except.ok newtok.access_token, st.set sid sess1, [req]⟩
                  else ⟨Except.ok newtok.access_token, st.set sid sess1, [req]⟩
              | none => ⟨Except.ok newtok.access_token, st.set sid sess1, [req]⟩

/-- Embedding of `EpicOAuthClient.has_token`:
`bool(tok and tok.get("access_token"))` where
`tok = sessions.get(sid, default-empty-dict).get("token")`. -/
def has_token (st : Store) (sid : String) : Bool :=
  match st.find? sid with
  | none => false
  | some sess =>
      match sess.token with
      | none => false
      | some tok => pyTruthy tok.access_token

/-- Embedding of `EpicOAuthClient.get_fhir_patient_id`:
`sessions.get(sid, default-empty-dict).get("fhir_patient_id")`. -/
def get_fhir_patient_id (st : Store) (sid : String) : Option String :=
  match st.find? sid with
  | none => none
  | some sess => sess.fhir_patient_id

/-- The attribute names the class `EpicOAuthClient` defines (its methods
as declared in `epic_oauth.py`; `__init__` additionally binds the
instance attribute `sessions`). -/
def methodNames : List String :=
  ["__init__", "create_session", "build_authorize_url", "redeem_code_for_token",
   "has_token", "get_valid_access_token", "get_fhir_patient_id", "sessions"]

end EpicOAuthClient

/-! ## `AI_IVR.py`: the call-flow orchestrator -/

namespace MCPRouterFallback

/-- Embedding of `MCPRouterFallback.epic_has_token`, which executes
`self.epic.has_valid_token(session_id)`.  `EpicOAuthClient` defines no
attribute `has_valid_token` (see `EpicOAuthClient.methodNames`), so the
attribute lookup raises `AttributeError` before any call happens; the
`then` branch is provably unreachable. -/
def epic_has_token (_st : Store) (_sid : String) : Except PyErr Bool :=
  if h : "has_valid_token" ∈ EpicOAuthClient.methodNames then
    absurd h (by decide)
  else
    Except.error (PyErr.attributeError "has_valid_token")

end MCPRouterFallback

/-- Outcome of the authorization-polling section of
`simulate_call_flow`. -/
inductive PollOutcome where
  /-- A token was detected: the Epic-mode intent handling runs. -/
  | epicMode : PollOutcome
  /-- All 24 checks failed: "Login not detected. Continuing without
  Epic." and the manual-mode path runs. -/
  | manualFallback : PollOutcome
  deriving DecidableEq, Repr

/-- Trace of the polling loop: how it ended (or which exception escaped),
how many `epic_has_token` checks ran, and the total seconds slept (one
5-second sleep before every check). -/
structure PollTrace where
  /-- Loop outcome, or the exception that crashed the call. -/
  outcome : Except PyErr PollOutcome
  /-- Number of `epic_has_token` checks performed (a check that raises
  counts). -/
  checks : Nat
  /-- Seconds spent in `asyncio.sleep(5)` calls. -/
  sleptSeconds : Nat
  deriving DecidableEq, Repr

/-- One unrolling of `for _ in range(n): await asyncio.sleep(5); if
MCP.epic_has_token(session_id): ...`.  `stores k` is the session store at
the time of the `k`-th check (the `/epic_callback` route may populate it
concurrently); `done` counts checks already performed. -/
def pollAux (stores : Nat → Store) (sid : String) : Nat → Nat → PollTrace
  | 0, done => ⟨Except.ok PollOutcome.manualFallback, done, 5 * done⟩
  | remaining + 1, done =>
      match MCPRouterFallback.epic_has_token (stores done) sid with
      | Except.error e => ⟨Except.error e, done + 1, 5 * (done + 1)⟩
      | Except.ok true => ⟨Except.ok PollOutcome.epicMode, done + 1, 5 * (done + 1)⟩
      | Except.ok false => pollAux stores sid remaining (done + 1)

/-- Embedding of the `for _ in range(24)` polling section of
`simulate_call_flow` (AI_IVR.py lines 131-142). -/
def simulate_call_flow_polling (stores : Nat → Store) (sid : String) : PollTrace :=
  pollAux stores sid 24 0

/-- Outcome of the slot-presentation / selection / booking section of
`handle_intent_with_epic` (AI_IVR.py lines 177-205). -/
inductive ScheduleOutcome where
  /-- Empty slot list: "No slots available.", no booking. -/
  | noSlots : ScheduleOutcome
  /-- No (or unrecognized) choice: "No appointment booked.", no
  booking. -/
  | noSelection : ScheduleOutcome
  /-- `MCP.book_slot` is invoked with `slots[idx]`. -/
  | bookingAttempted (idx : Nat) : ScheduleOutcome
  deriving DecidableEq, Repr

/-- Embedding of the `selected = ...` branch ladder of
`handle_intent_with_epic` (lines 191-197) on the already-lowercased
`choice` string.  The first branch's `slots[0]` is reached only with a
nonempty slot list (the function returns at line 178 otherwise), where
`List.get? 0` agrees with Python indexing. -/
def selected_slot {α : Type} (slots : List α) (choice : String) : Option α :=
  if pyIn "1" choice || pyIn "one" choice then slots.get? 0
  else if pyIn "2" choice && decide (slots.length > 1) then slots.get? 1
  else if pyIn "3" choice && decide (slots.length > 2) then slots.get? 2
  else none

/-- Embedding of `handle_intent_with_epic` lines 177-205: guard the empty
slot list, lowercase `(utterance or "")`, run the selection ladder, and
book exactly when a slot was selected. -/
def epic_slot_flow {α : Type} (slots : List α) (utterance : Option String) :
    ScheduleOutcome :=
  if slots.isEmpty then ScheduleOutcome.noSlots
  else
    let choice := pyLower (utterance.getD "")
    if pyIn "1" choice || pyIn "one" choice then ScheduleOutcome.bookingAttempted 0
    else if pyIn "2" choice && decide (slots.length > 1) then ScheduleOutcome.bookingAttempted 1
    else if pyIn "3" choice && decide (slots.length > 2) then ScheduleOutcome.bookingAttempted 2
    else ScheduleOutcome.noSelection

/-! ## `fhir_appointments.py`: `FHIRAppointmentClient.book_appointment` -/

/-- The `$book` request: URL, the Parameters body (modelled structurally:
an `id` valueString, a `patient` resource, an optional `comment`), and the
bearer token of the `Authorization` header. -/
structure BookRequest where
  /-- Request URL (`base + "/Appointment/$book"`). -/
  url : String
  /-- Parameter `id` (the appointment id returned by `$find`). -/
  appointment_id : String
  /-- Parameter `patient` (resource id). -/
  patient_id : String
  /-- Optional `comment` parameter. -/
  comment : Option String := none
  /-- Bearer token of the `Authorization` header. -/
  bearer : String
  deriving DecidableEq, Repr

/-- Response of the `$book` endpoint: HTTP status and parsed JSON body. -/
structure BookResponse where
  /-- HTTP status code. -/
  status : Nat
  /-- Parsed response body (`r.json()`). -/
  body : Json

/-- Result of `book_appointment`: the returned server JSON or the escaped
exception, plus the requests issued. -/
structure BookOut where
  /-- Return value or escaped exception. -/
  result : Except PyErr Json
  /-- Requests POSTed to the `$book` endpoint, in order. -/
  requests : List BookRequest

namespace FHIRAppointmentClient

/-- Embedding of `FHIRAppointmentClient.book_appointment`: a falsy access
token raises `RuntimeError` before any request; otherwise the Parameters
body is POSTed and `raise_for_status` turns any 4xx/5xx — a
slot-no-longer-available conflict included — into the generic
`requests.HTTPError`; a 2xx returns the server JSON. -/
def book_appointment (base : String) (patient_id appointment_id : String)
    (access_token : Option String) (reason : Option String)
    (resp : BookResponse) : BookOut :=
  if ¬ pyTruthy access_token then
    ⟨Except.error (PyErr.runtimeError "access_token required"), []⟩
  else
    let req : BookRequest :=
      { url := base ++ "/Appointment/$book", appointment_id := appointment_id,
        patient_id := patient_id, comment := reason,
        bearer := access_token.getD "" }
    if raisesForStatus resp.status then
      ⟨Except.error (PyErr.httpError resp.status), [req]⟩
    else
      ⟨Except.ok resp.body, [req]⟩

end FHIRAppointmentClient

/-! ## `customer_data.py`: `validate_customer` -/

/-- One row of the customer table, as `pd.read_excel(path, dtype=str)`
reads it (every column a string; the columns are the ones
`generate_customers` writes). -/
structure CustomerRow where
  /-- Column `customer_id`. -/
  customer_id : String
  /-- Column `first_name`. -/
  first_name : String
  /-- Column `last_name`. -/
  last_name : String
  /-- Column `phone`. -/
  phone : String
  /-- Column `last4ssn`. -/
  last4ssn : String
  /-- Column `dob` (format `MM/DD/YYYY`). -/
  dob : String
  /-- Column `zip_code`. -/
  zip_code : String
  /-- Column `plan`. -/
  plan : String
  /-- Column `status`. -/
  status : String
  /-- Column `email`. -/
  email : String
  deriving DecidableEq, Repr

/-- Python `s.endswith(suffix)`. -/
def pyEndsWith (s suffix : String) : Bool :=
  suffix.data.isSuffixOf s.data

/-- The derived `phone_norm` column: digits of the stored phone, last 10
characters. -/
def phone_norm (r : CustomerRow) : String :=
  pyLastN (_normalize_digits r.phone) 10

/-- The row filter of `validate_customer`: `phone_norm` ends with the last
10 digits of the spoken phone, `last4ssn` equals the normalized last-4,
and `dob` equals the normalized DOB. -/
def customer_matches (phone_digits last4 dob_norm : String) (r : CustomerRow) : Bool :=
  pyEndsWith (phone_norm r) (pyLastN phone_digits 10) &&
  r.last4ssn = last4 && r.dob = dob_norm

/-- Embedding of `customer_data.validate_customer`.  `table` is `none`
when the data file does not exist, otherwise the rows of the spreadsheet.
Inputs are normalized (digits extracted; an 8-digit DOB reformatted to
`MM/DD/YYYY`), the table filtered, and the first match returned
(`match.iloc[0]`). -/
def validate_customer (table : Option (List CustomerRow))
    (phone_spoken last4_spoken dob_spoken : String) : Option CustomerRow :=
  match table with
  | none => none
  | some df =>
      let phone_digits := _normalize_digits phone_spoken
      let last4 := pyLastN (_normalize_digits last4_spoken) 4
      let dob0 := pyStrip dob_spoken
      let raw_digits := _normalize_digits dob0
      let dob_norm :=
        if raw_digits.length = 8 then
          String.mk (raw_digits.data.take 2) ++ "/" ++
            String.mk ((raw_digits.data.drop 2).take 2) ++ "/" ++
            String.mk ((raw_digits.data.drop 4).take 4)
        else dob0
      (df.filter (customer_matches phone_digits last4 dob_norm)).head?

/-! ## Auxiliary specification-side definitions for the theorems -/

/-- Whether the patient-id re-extraction on a refreshed token runs without
raising (it raises `TypeError` only for an id-token whose `fhirUser` claim
is truthy but not a string). -/
def refreshExtractOk (body : TokenJson) : Bool :=
  match body.id_token with
  | none => true
  | some idt =>
      idt = "" ||
        match derive_fhir_user_patient idt with
        | Except.ok _ => true
        | Except.error _ => false

/-- A concrete configuration, for the concrete evaluations below. -/
def cfgEx : Config :=
  { client_id := "cid", redirect_uri := "https://app.example/cb",
    scope := "openid fhirUser", fhir_base := "https://fhir.example/STU3",
    authorize_url := "https://auth.example/authorize",
    token_url := "https://auth.example/token", client_secret := none }

/-- A concrete stand-in for the SHA-256 digest primitive, for the concrete
evaluations below (none of the claims concerns the challenge value). -/
def shaEx : List Nat → List Nat := fun _ => List.replicate 32 171

/-- A concrete stored token (expires at time 100, refresh token present),
for the concrete evaluations below. -/
def tokEx : TokenJson :=
  { access_token := some "atok", refresh_token := some "rtok",
    expires_at := some 100 }

/-- A concrete session holding `tokEx`. -/
def sessEx : Session :=
  { created_at := some 0, token := some tokEx }

/-- A concrete session holding a token with no refresh token (expires at
time 100). -/
def sessNR : Session :=
  { created_at := some 0,
    token := some { access_token := some "a2", expires_at := some 100 } }

/-- A concrete successful token-endpoint response carrying a fresh access
token. -/
def respNew : TokenResponse :=
  ⟨200, { access_token := some "newtok", expires_in := some 3600 }⟩

/-- The store after `create_session` plus one `build_authorize_url` call
for session `s1` (40 zero bytes of randomness). -/
def c5Store1 : Store :=
  (EpicOAuthClient.build_authorize_url cfgEx
    (EpicOAuthClient.create_session [] "s1" 0) "s1" (List.replicate 40 0) shaEx).1

/-- The store after a second `build_authorize_url` call for the same
session `s1` (40 bytes of 255 this time). -/
def c5Store2 : Store :=
  (EpicOAuthClient.build_authorize_url cfgEx c5Store1 "s1"
    (List.replicate 40 255) shaEx).1

/-- The store after `create_session` plus `build_authorize_url` for
session `sess1` (40 zero bytes of randomness). -/
def c6Store : Store :=
  (EpicOAuthClient.build_authorize_url cfgEx
    (EpicOAuthClient.create_session [] "sess1" 0) "sess1"
    (List.replicate 40 0) shaEx).1

/-- A concrete customer row matching phone 555-123-4567 / SSN 9876 / DOB
11/10/1986. -/
def rowEx : CustomerRow :=
  { customer_id := "7", first_name := "Ana", last_name := "Lee",
    phone := "(555) 123-4567", last4ssn := "9876", dob := "11/10/1986",
    zip_code := "02139", plan := "Gold", status := "Silver",
    email := "ana@example.com" }

/-- A concrete customer row that matches none of the queried values. -/
def rowOther : CustomerRow :=
  { customer_id := "8", first_name := "Bo", last_name := "Cruz",
    phone := "2025550101", last4ssn := "1234", dob := "01/02/1990",
    zip_code := "10001", plan := "Basic", status := "Bronze",
    email := "bo@example.com" }

/-! ## Theorems -/

/-- Looking up a just-set key of the session store. -/
theorem Store.find?_set (st : Store) (sid : String) (sess : Session) :
    (st.set sid sess).find? sid = some sess := by
  induction st with
  | nil => simp [Store.set, Store.find?]
  | cons kv rest ih =>
      by_cases h : kv.1 = sid
      · simp [Store.set, Store.find?, h]
      · simp [Store.set, Store.find?, h, ih]

/-- C1: the authorization-polling loop of `simulate_call_flow` is bounded
by construction (24 iterations, a 5-second sleep before each check), but
its very first `epic_has_token` check raises
`AttributeError("has_valid_token")` — `MCPRouterFallback.epic_has_token`
calls `EpicOAuthClient.has_valid_token`, an attribute the client does not
define (its token-presence method is `has_token`) — so a call session that
opts into Epic crashes at the first poll instead of ever reaching the
24-check manual-routing fallback. -/
theorem C1_epic_poll_crashes_on_first_check :
    simulate_call_flow_polling (fun _ => []) "s1" =
      ⟨Except.error (PyErr.attributeError "has_valid_token"), 1, 5⟩ ∧
    "has_valid_token" ∉ EpicOAuthClient.methodNames ∧
    "has_token" ∈ EpicOAuthClient.methodNames :=
  ⟨rfl, by decide, by decide⟩

/-- C4: `redeem_code_for_token` fails with the "Unknown session"
`RuntimeError` when the session id is not in the store, fails with the
"PKCE verifier missing for session" `RuntimeError` when the session exists
but holds no (truthy) verifier — in particular when `build_authorize_url`
was never called for it, since `create_session` initialises the verifier
to `None` — and issues a token-endpoint request only when a truthy
verifier is stored. -/
theorem C4_redeem_requires_verifier (cfg : Config) (st : Store)
    (code sid : String) (now : Int) (resp : TokenResponse) :
    (st.find? sid = none →
      EpicOAuthClient.redeem_code_for_token cfg st code sid now resp =
        ⟨Except.error (PyErr.runtimeError "Unknown session"), st, []⟩) ∧
    (∀ sess, st.find? sid = some sess → pyTruthy sess.pkce_verifier = false →
      EpicOAuthClient.redeem_code_for_token cfg st code sid now resp =
        ⟨Except.error (PyErr.runtimeError "PKCE verifier missing for session"), st, []⟩) ∧
    ((EpicOAuthClient.redeem_code_for_token cfg st code sid now resp).requests ≠ [] →
      ∃ sess, st.find? sid = some sess ∧ pyTruthy sess.pkce_verifier = true) := by
  refine ⟨fun h => ?_, fun sess h hv => ?_, fun h => ?_⟩
  · simp [EpicOAuthClient.redeem_code_for_token, h]
  · simp [EpicOAuthClient.redeem_code_for_token, h, hv]
  · cases hfind : st.find? sid with
    | none =>
        exfalso
        apply h
        simp [EpicOAuthClient.redeem_code_for_token, hfind]
    | some sess =>
        refine ⟨sess, rfl, ?_⟩
        rcases Bool.eq_false_or_eq_true (pyTruthy sess.pkce_verifier) with hv | hv
        · exact hv
        · exfalso
          apply h
          simp [EpicOAuthClient.redeem_code_for_token, hfind, hv]

/-- C4 witness: on the empty store redemption fails with the unknown
session error; on a store fresh from `create_session` (no
`build_authorize_url` call) it fails with the missing-verifier error; and
when a request was issued for session `s1`, that session holds a truthy
verifier. -/
theorem C4_redeem_requires_verifier_witness :
    (EpicOAuthClient.redeem_code_for_token cfgEx [] "abc123" "s1" 0 ⟨200, {}⟩ =
      ⟨Except.error (PyErr.runtimeError "Unknown session"), [], []⟩) ∧
    (EpicOAuthClient.redeem_code_for_token cfgEx
        (EpicOAuthClient.create_session [] "s1" 0) "abc123" "s1" 0 ⟨200, {}⟩ =
      ⟨Except.error (PyErr.runtimeError "PKCE verifier missing for session"),
        EpicOAuthClient.create_session [] "s1" 0, []⟩) ∧
    (∃ sess,
      Store.find? [("s1", { pkce_verifier := some "v" })] "s1" = some sess ∧
      pyTruthy sess.pkce_verifier = true) :=
  ⟨(C4_redeem_requires_verifier cfgEx [] "abc123" "s1" 0 ⟨200, {}⟩).1 (by decide),
   (C4_redeem_requires_verifier cfgEx (EpicOAuthClient.create_session [] "s1" 0)
      "abc123" "s1" 0 ⟨200, {}⟩).2.1 { created_at := some 0 } (by decide) (by decide),
   (C4_redeem_requires_verifier cfgEx [("s1", { pkce_verifier := some "v" })]
      "abc123" "s1" 0 ⟨200, {}⟩).2.2 (by decide)⟩

/-- C7: with three slots presented, the spoken ordinal "two" is not
recognized by the selection ladder (which accepts the word "one" but only
the digits "2"/"3"), so no slot is selected and no booking is attempted;
the digit utterance "2" does select the second slot (index 1), and an
unrelated utterance selects nothing. -/
theorem C7_spoken_two_selects_nothing :
    selected_slot ["slotA", "slotB", "slotC"] (pyLower "two") = none ∧
    epic_slot_flow ["slotA", "slotB", "slotC"] (some "two") = ScheduleOutcome.noSelection ∧
    epic_slot_flow ["slotA", "slotB", "slotC"] (some "2") = ScheduleOutcome.bookingAttempted 1 ∧
    epic_slot_flow ["slotA", "slotB", "slotC"] (some "next tuesday please") =
      ScheduleOutcome.noSelection := by
  refine ⟨by decide, by decide, by decide, by decide⟩

/-- C8 counterexample: when the provider reports the slot no longer
available (409 on `$book`), `book_appointment` raises the generic
`requests.HTTPError` — the same exception constructor produced by any
other failure status such as 500 — not a dedicated `BookingConflict`
error (no such type exists in the repository). -/
theorem C8_conflict_is_generic_http_error :
    (FHIRAppointmentClient.book_appointment "https://fhir.example/STU3" "p1"
        "appt1" (some "tok") none ⟨409, Json.obj []⟩).result =
      Except.error (PyErr.httpError 409) ∧
    (FHIRAppointmentClient.book_appointment "https://fhir.example/STU3" "p1"
        "appt1" (some "tok") none ⟨500, Json.obj []⟩).result =
      Except.error (PyErr.httpError 500) :=
  ⟨rfl, rfl⟩

/-- C8 amended: for every booking request with a truthy access token where
the provider answers any 4xx/5xx — a slot-no-longer-available conflict
included — `book_appointment` raises the generic `requests.HTTPError`
carrying the status, after issuing exactly one `$book` request; it never
produces a typed `BookingConflict` distinct from other failures. -/
theorem C8_book_raises_generic_http_error (base pid aid : String)
    (tokn reason : Option String) (resp : BookResponse)
    (htok : pyTruthy tokn = true) (hst : raisesForStatus resp.status = true) :
    FHIRAppointmentClient.book_appointment base pid aid tokn reason resp =
      ⟨Except.error (PyErr.httpError resp.status),
        [{ url := base ++ "/Appointment/$book", appointment_id := aid,
           patient_id := pid, comment := reason, bearer := tokn.getD "" }]⟩ := by
  simp [FHIRAppointmentClient.book_appointment, htok, hst]

/-- C8 amended witness: a concrete conflict response produces the generic
HTTP 409 error after one `$book` request. -/
theorem C8_book_raises_generic_http_error_witness :
    FHIRAppointmentClient.book_appointment "base" "pat9" "appt7" (some "bear")
        (some "checkup") ⟨409, Json.null⟩ =
      ⟨Except.error (PyErr.httpError 409),
        [{ url := "base/Appointment/$book", appointment_id := "appt7",
           patient_id := "pat9", comment := some "checkup", bearer := "bear" }]⟩ :=
  C8_book_raises_generic_http_error "base" "pat9" "appt7" (some "bear")
    (some "checkup") ⟨409, Json.null⟩ (by decide) (by decide)

/-- C10: for a session id not present in the store the read accessors are
total and raise nothing: `has_token` is `false`, `get_valid_access_token`
returns `None` (issuing no request and leaving the store unchanged), and
`get_fhir_patient_id` returns `None` — indistinguishable from a known
session with no token. -/
theorem C10_unknown_session_reads_are_total (cfg : Config) (st : Store)
    (sid : String) (now nowRefresh : Int) (resp : TokenResponse)
    (h : st.find? sid = none) :
    EpicOAuthClient.has_token st sid = false ∧
    EpicOAuthClient.get_valid_access_token cfg st sid now nowRefresh resp =
      ⟨Except.ok none, st, []⟩ ∧
    EpicOAuthClient.get_fhir_patient_id st sid = none := by
  refine ⟨?_, ?_, ?_⟩
  · simp [EpicOAuthClient.has_token, h]
  · simp [EpicOAuthClient.get_valid_access_token, h]
  · simp [EpicOAuthClient.get_fhir_patient_id, h]

/-- C10 witness: on a store holding only the session "other", the three
accessors applied to the unknown id "s1" return `false`/`None`/`None`. -/
theorem C10_unknown_session_reads_witness :
    EpicOAuthClient.has_token [("other", {})] "s1" = false ∧
    EpicOAuthClient.get_valid_access_token cfgEx [("other", {})] "s1" 0 0 ⟨200, {}⟩ =
      ⟨Except.ok none, [("other", {})], []⟩ ∧
    EpicOAuthClient.get_fhir_patient_id [("other", {})] "s1" = none :=
  C10_unknown_session_reads_are_total cfgEx [("other", {})] "s1" 0 0 ⟨200, {}⟩
    (by decide)

/-- C2: for a session holding a token with stored expiry `E`,
`get_valid_access_token` called at a time strictly before `E - 10` returns
the cached access token with no refresh request and the store untouched;
called at or after `E - 10` it returns `None` without any request when no
truthy refresh token is stored, and otherwise issues exactly one refresh
request, returning the response's new access token when the endpoint
answers successfully (and the patient-id re-extraction on the new token
does not raise). -/
theorem C2_token_cache_and_refresh (cfg : Config) (st : Store) (sid : String)
    (sess : Session) (tok : TokenJson) (E now nowRefresh : Int)
    (resp : TokenResponse) (hs : Store.find? st sid = some sess)
    (ht : sess.token = some tok) (hE : tok.expires_at = some E) :
    (now < E - 10 →
      EpicOAuthClient.get_valid_access_token cfg st sid now nowRefresh resp =
        ⟨Except.ok tok.access_token, st, []⟩) ∧
    (E - 10 ≤ now → pyTruthy tok.refresh_token = false →
      EpicOAuthClient.get_valid_access_token cfg st sid now nowRefresh resp =
        ⟨Except.ok none, st, []⟩) ∧
    (E - 10 ≤ now → pyTruthy tok.refresh_token = true →
      raisesForStatus resp.status = false → refreshExtractOk resp.body = true →
      (EpicOAuthClient.get_valid_access_token cfg st sid now nowRefresh resp).result =
        Except.ok resp.body.access_token ∧
      (EpicOAuthClient.get_valid_access_token cfg st sid now nowRefresh resp).requests =
        [EpicOAuthClient.refresh_request cfg tok.refresh_token]) := by
  refine ⟨fun hf => ?_, fun hstale hrf => ?_, fun hstale hrf hok hder => ?_⟩
  · simp [EpicOAuthClient.get_valid_access_token, hs, ht, hE, hf]
  · simp [EpicOAuthClient.get_valid_access_token, hs, ht, hE, not_lt.mpr hstale, hrf]
  · have hcond : ¬ now < E - 10 := not_lt.mpr hstale
    cases hidt : resp.body.id_token with
    | none =>
        constructor <;>
          simp [EpicOAuthClient.get_valid_access_token, hs, ht, hE, hcond, hrf, hok, hidt]
    | some idt =>
        by_cases hemp : idt = ""
        · constructor <;>
            simp [EpicOAuthClient.get_valid_access_token, hs, ht, hE, hcond, hrf, hok,
              hidt, hemp]
        · cases hd : derive_fhir_user_patient idt with
          | error e =>
              exfalso
              rw [refreshExtractOk, hidt] at hder
              simp [hemp, hd] at hder
          | ok po =>
              cases po with
              | none =>
                  constructor <;>
                    simp [EpicOAuthClient.get_valid_access_token, hs, ht, hE, hcond, hrf,
                      hok, hidt, hemp, hd]
              | some p =>
                  constructor <;>
                    simp [EpicOAuthClient.get_valid_access_token, hs, ht, hE, hcond, hrf,
                      hok, hidt, hemp, hd]

/-- C2 witness: on concrete sessions — token expiring at 100 — a call at
time 0 returns the cached token with no request; at time 100 with no
refresh token stored it returns `None` with no request; at time 95 with a
refresh token and a successful endpoint response it returns the new access
token after exactly one refresh request. -/
theorem C2_token_cache_and_refresh_witness :
    (EpicOAuthClient.get_valid_access_token cfgEx [("s1", sessEx)] "s1" 0 0 ⟨200, {}⟩ =
      ⟨Except.ok (some "atok"), [("s1", sessEx)], []⟩) ∧
    (EpicOAuthClient.get_valid_access_token cfgEx [("s1", sessNR)] "s1" 100 100 ⟨200, {}⟩ =
      ⟨Except.ok none, [("s1", sessNR)], []⟩) ∧
    ((EpicOAuthClient.get_valid_access_token cfgEx [("s1", sessEx)] "s1" 95 95 respNew).result =
        Except.ok (some "newtok") ∧
      (EpicOAuthClient.get_valid_access_token cfgEx [("s1", sessEx)] "s1" 95 95 respNew).requests =
        [EpicOAuthClient.refresh_request cfgEx (some "rtok")]) :=
  ⟨(C2_token_cache_and_refresh cfgEx [("s1", sessEx)] "s1" sessEx tokEx 100 0 0
      ⟨200, {}⟩ (by decide) (by decide) (by decide)).1 (by norm_num),
   (C2_token_cache_and_refresh cfgEx [("s1", sessNR)] "s1" sessNR
      { access_token := some "a2", expires_at := some 100 } 100 100 100
      ⟨200, {}⟩ (by decide) (by decide) (by decide)).2.1 (by norm_num) (by decide),
   (C2_token_cache_and_refresh cfgEx [("s1", sessEx)] "s1" sessEx tokEx 100 95 95
      respNew (by decide) (by decide) (by decide)).2.2 (by norm_num) (by decide)
      (by decide) (by decide)⟩

/-- C3 counterexample: a session whose refresh attempt hits a 400 from the
token endpoint does not get `None` back — `get_valid_access_token` raises
the `raise_for_status` HTTP error to its caller. -/
theorem C3_nonsuccess_refresh_raises :
    (EpicOAuthClient.get_valid_access_token cfgEx [("s1", sessEx)] "s1" 500 500
        ⟨400, {}⟩).result = Except.error (PyErr.httpError 400) := by
  decide

/-- C3 amended: for a session due for refresh, a missing (falsy) refresh
token makes `get_valid_access_token` return `None` without raising and
without any request; but when a refresh token is present and the token
endpoint answers a 4xx/5xx, the operation raises the HTTP-status error to
its caller (after exactly one refresh request) instead of returning
`None`. -/
theorem C3_refresh_failure_paths (cfg : Config) (st : Store) (sid : String)
    (sess : Session) (tok : TokenJson) (now nowRefresh : Int)
    (resp : TokenResponse) (hs : Store.find? st sid = some sess)
    (ht : sess.token = some tok)
    (hstale : ¬ now < tok.expires_at.getD 0 - 10) :
    (pyTruthy tok.refresh_token = false →
      EpicOAuthClient.get_valid_access_token cfg st sid now nowRefresh resp =
        ⟨Except.ok none, st, []⟩) ∧
    (pyTruthy tok.refresh_token = true → raisesForStatus resp.status = true →
      EpicOAuthClient.get_valid_access_token cfg st sid now nowRefresh resp =
        ⟨Except.error (PyErr.httpError resp.status), st,
          [EpicOAuthClient.refresh_request cfg tok.refresh_token]⟩) := by
  refine ⟨fun hrf => ?_, fun hrf hst => ?_⟩
  · simp [EpicOAuthClient.get_valid_access_token, hs, ht, hstale, hrf]
  · simp [EpicOAuthClient.get_valid_access_token, hs, ht, hstale, hrf, hst]

/-- C3 amended witness: concretely, at time 500 a session with no refresh
token yields `None` with no request, and a session with a refresh token
facing a 503 yields the HTTP 503 error after one refresh request. -/
theorem C3_refresh_failure_paths_witness :
    (EpicOAuthClient.get_valid_access_token cfgEx [("s2", sessNR)] "s2" 500 500 ⟨200, {}⟩ =
      ⟨Except.ok none, [("s2", sessNR)], []⟩) ∧
    (EpicOAuthClient.get_valid_access_token cfgEx [("s2", sessEx)] "s2" 500 500 ⟨503, {}⟩ =
      ⟨Except.error (PyErr.httpError 503), [("s2", sessEx)],
        [EpicOAuthClient.refresh_request cfgEx (some "rtok")]⟩) :=
  ⟨(C3_refresh_failure_paths cfgEx [("s2", sessNR)] "s2" sessNR
      { access_token := some "a2", expires_at := some 100 } 500 500 ⟨200, {}⟩
      (by decide) (by decide) (by decide)).1 (by decide),
   (C3_refresh_failure_paths cfgEx [("s2", sessEx)] "s2" sessEx tokEx 500 500
      ⟨503, {}⟩ (by decide) (by decide) (by decide)).2 (by decide) (by decide)⟩

/-- Characters that `quote_plus` leaves unescaped encode to themselves. -/
theorem flatMap_quotePlusChar_of_safe (l : List Char)
    (h : l.all quotePlusSafe = true) : l.flatMap quotePlusChar = l := by
  induction l with
  | nil => simp
  | cons c cs ih =>
      rw [List.all_cons, Bool.and_eq_true] at h
      simp [quotePlusChar, h.1, ih h.2]

/-- A string of unescaped characters is fixed by `quote_plus`. -/
theorem quote_plus_of_safe (s : String) (h : s.data.all quotePlusSafe = true) :
    quote_plus s = s := by
  rw [quote_plus, flatMap_quotePlusChar_of_safe s.data h]

/-- Length of the stripped base64url encoding: four characters per 3-byte
group, two or three for a trailing group. -/
theorem length_urlsafe_b64encode_nopad : ∀ l : List Nat,
    (urlsafe_b64encode_nopad l).length = (l.length * 4 + 2) / 3
  | [] => by simp [urlsafe_b64encode_nopad]
  | [_] => by simp [urlsafe_b64encode_nopad]
  | [_, _] => by simp [urlsafe_b64encode_nopad]
  | _ :: _ :: _ :: rest => by
      have ih := length_urlsafe_b64encode_nopad rest
      simp [urlsafe_b64encode_nopad, ih]
      omega

/-- C5 counterexample: calling `build_authorize_url` twice for session
`s1` silently replaces the recorded PKCE verifier with a fresh one — no
`VerifierAlreadySet` failure — and calling it for a session id absent from
the store (`s9`) silently creates the session entry instead of failing
with `UnknownSession`. -/
theorem C5_verifier_silently_rotated :
    ((Store.find? c5Store1 "s1").bind Session.pkce_verifier =
      some (String.mk (urlsafe_b64encode_nopad (List.replicate 40 0)))) ∧
    ((Store.find? c5Store2 "s1").bind Session.pkce_verifier =
      some (String.mk (urlsafe_b64encode_nopad (List.replicate 40 255)))) ∧
    ((Store.find? c5Store1 "s1").bind Session.pkce_verifier ≠
      (Store.find? c5Store2 "s1").bind Session.pkce_verifier) ∧
    Store.find? ([] : Store) "s9" = none ∧
    (Store.find? (EpicOAuthClient.build_authorize_url cfgEx [] "s9"
        (List.replicate 40 0) shaEx).1 "s9").isSome = true := by
  refine ⟨by decide, by decide, by decide, by decide, by decide⟩

/-- C5 amended: `build_authorize_url` never fails: for every store and
session id it records the freshly generated verifier, overwriting any
verifier already present for that session, and silently creating a
(partial) session entry when the id is unknown; all other session fields
are preserved. -/
theorem C5_build_always_overwrites_verifier (cfg : Config) (st : Store)
    (sid : String) (bytes : List Nat) (sha : List Nat → List Nat) :
    Store.find? (EpicOAuthClient.build_authorize_url cfg st sid bytes sha).1 sid =
      some { (Store.find? st sid).getD {} with
             pkce_verifier := some (_make_pkce_pair bytes sha).1 } := by
  simp [EpicOAuthClient.build_authorize_url, Store.find?_set]

/-- C6 counterexample: the verifier recorded for a freshly created session
is 54 characters long (it encodes the 40 random bytes of
`secrets.token_bytes(40)`), not the 43 characters a 32-byte verifier would
have. -/
theorem C6_verifier_is_54_chars :
    ((Store.find? c6Store "sess1").bind Session.pkce_verifier).map String.length =
      some 54 ∧
    ((Store.find? c6Store "sess1").bind Session.pkce_verifier).map String.length ≠
      some 43 := by
  refine ⟨by decide, by decide⟩

/-- C6 amended: for a session id made of unescaped characters (as
`secrets.token_urlsafe` ids are) and the 40 random bytes the source draws,
`build_authorize_url` returns a URL whose query string contains
`state=<sessionId>` verbatim, and the PKCE verifier it records in the
session is the 54-character base64url (no padding) encoding of those 40
random bytes. -/
theorem C6_authorize_url_state_and_verifier (cfg : Config) (st : Store)
    (sid : String) (bytes : List Nat) (sha : List Nat → List Nat)
    (hlen : bytes.length = 40)
    (hsafe : sid.data.all quotePlusSafe = true) :
    (∃ pre post : String,
      (EpicOAuthClient.build_authorize_url cfg st sid bytes sha).2 =
        pre ++ ("state=" ++ sid) ++ post) ∧
    (Store.find? (EpicOAuthClient.build_authorize_url cfg st sid bytes sha).1 sid).bind
        Session.pkce_verifier = some (_make_pkce_pair bytes sha).1 ∧
    (_make_pkce_pair bytes sha).1.length = 54 := by
  have hq : quote_plus sid = sid := quote_plus_of_safe sid hsafe
  refine ⟨⟨cfg.authorize_url ++ "?" ++
      (quote_plus "client_id" ++ "=" ++ quote_plus cfg.client_id) ++ "&" ++
      (quote_plus "response_type" ++ "=" ++ quote_plus "code") ++ "&" ++
      (quote_plus "redirect_uri" ++ "=" ++ quote_plus cfg.redirect_uri) ++ "&" ++
      (quote_plus "scope" ++ "=" ++ quote_plus cfg.scope) ++ "&",
    "&" ++ (quote_plus "code_challenge" ++ "=" ++
        quote_plus (_make_pkce_pair bytes sha).2) ++ "&" ++
      (quote_plus "code_challenge_method" ++ "=" ++ quote_plus "S256") ++ "&" ++
      (quote_plus "aud" ++ "=" ++ quote_plus cfg.fhir_base), ?_⟩, ?_, ?_⟩
  · simp only [EpicOAuthClient.build_authorize_url, urlencode, List.map, joinAmp, hq,
      String.append_assoc]
    rfl
  · simp [EpicOAuthClient.build_authorize_url, Store.find?_set]
  · rw [_make_pkce_pair]
    simp [String.length, length_urlsafe_b64encode_nopad, hlen]

/-- C6 amended witness: concretely, for session id `sess1` and 40 zero
bytes, the authorize URL contains `state=sess1` and the recorded verifier
(54 characters of `A`) is returned. -/
theorem C6_authorize_url_state_and_verifier_witness :
    (∃ pre post : String,
      (EpicOAuthClient.build_authorize_url cfgEx
          (EpicOAuthClient.create_session [] "sess1" 0) "sess1"
          (List.replicate 40 0) shaEx).2 = pre ++ ("state=" ++ "sess1") ++ post) ∧
    (Store.find? c6Store "sess1").bind Session.pkce_verifier =
      some (_make_pkce_pair (List.replicate 40 0) shaEx).1 ∧
    (_make_pkce_pair (List.replicate 40 0) shaEx).1.length = 54 :=
  C6_authorize_url_state_and_verifier cfgEx
    (EpicOAuthClient.create_session [] "sess1" 0) "sess1" (List.replicate 40 0)
    shaEx (by decide) (by decide)

/-- C9: identity validation with phone "555-123-4567", SSN last-four
"9876" and the normalized DOB digit string "11101986" filters the stored
table with the phone digits `5551234567`, the last-four `9876` and the DOB
reformatted to `11/10/1986`, returning the first match; any record it
returns has a normalized phone ending in `5551234567`, `last4ssn` equal to
`9876`, and `dob` equal to `11/10/1986`, and belongs to the table. -/
theorem C9_identity_validation (df : List CustomerRow) :
    validate_customer (some df) "555-123-4567" "9876" "11101986" =
      (df.filter (customer_matches "5551234567" "9876" "11/10/1986")).head? ∧
    ∀ r, validate_customer (some df) "555-123-4567" "9876" "11101986" = some r →
      pyEndsWith (phone_norm r) "5551234567" = true ∧
      r.last4ssn = "9876" ∧ r.dob = "11/10/1986" ∧ r ∈ df := by
  refine ⟨rfl, fun r h => ?_⟩
  have h' : (df.filter (customer_matches "5551234567" "9876" "11/10/1986")).head? =
      some r := h
  cases hf : df.filter (customer_matches "5551234567" "9876" "11/10/1986") with
  | nil => rw [hf] at h'; simp at h'
  | cons a t =>
      rw [hf] at h'
      simp at h'
      subst h'
      have hmem : a ∈ df.filter (customer_matches "5551234567" "9876" "11/10/1986") := by
        rw [hf]; exact List.mem_cons_self a t
      have hand := List.mem_filter.mp hmem
      have hP := hand.2
      rw [customer_matches, Bool.and_eq_true, Bool.and_eq_true] at hP
      refine ⟨hP.1.1, ?_, ?_, hand.1⟩
      · exact of_decide_eq_true hP.1.2
      · exact of_decide_eq_true hP.2

/-- C9 witness: on a concrete two-row table the matching record is
returned (not the non-matching first row) and carries the asserted phone
suffix, last-four and DOB. -/
theorem C9_identity_validation_witness :
    validate_customer (some [rowOther, rowEx]) "555-123-4567" "9876" "11101986" =
      some rowEx ∧
    pyEndsWith (phone_norm rowEx) "5551234567" = true ∧
    rowEx.last4ssn = "9876" ∧ rowEx.dob = "11/10/1986" ∧
    rowEx ∈ [rowOther, rowEx] :=
  ⟨by decide,
   (C9_identity_validation [rowOther, rowEx]).2 rowEx (by decide)⟩
